import Mathlib

/-!
# Verification of the PointsSwap_FHE encrypted loyalty-points ledger

A shallow embedding of `src/contracts/PointsSwap_FHE.sol` in Lean 4.

Modelling conventions:
* Addresses are `Nat`; `block.timestamp` is an explicit `Nat` parameter.
* An `euint32` ciphertext is modelled by its underlying plaintext value, a
  `Nat` reduced modulo `2^32`; the FHE homomorphic operations `add`, `sub`,
  `mul` are wrapping 32-bit arithmetic on those values, and `FHE.fromExternal`
  together with the `FHE.isInitialized` check is modelled by an `ExtCipher`
  carrying the value and the result of the input-validity check.  The ACL
  calls (`FHE.allowThis`, `FHE.makePubliclyDecryptable`) do not affect any
  state read by the contract's functions and are not modelled.
* Solidity mappings are total functions returning the zero-initialised
  default value, exactly as Solidity mappings do.
* Each external function takes the pre-state together with `msg.sender`
  (and the timestamp where the body reads it) and returns
  `Except Err ContractState`.  A `require` failure reverts the transaction,
  so an `Except.error` result means no state change at all survives.
-/

/-- The `require` failure messages of the contract, as named errors.
`Err.message` maps each constructor to the exact source string. -/
inductive Err where
  | AccountAlreadyExists
  | InvalidEncryptedInput
  | BrandAlreadySupported
  | BrandPairUnsupported
  | InvalidEncryptedRate
  | AccountInactive
  | InvalidAmount
  | RateNotSet
  | AccountNotFound
  | RateNotFound
  | AccountNotActive
  | Unauthorized
  | InvalidAddress
  deriving DecidableEq, Repr

/-- The literal `require` message attached to each error in the source. -/
def Err.message : Err → String
  | .AccountAlreadyExists => "Account already exists"
  | .InvalidEncryptedInput => "Invalid encrypted input"
  | .BrandAlreadySupported => "Brand already supported"
  | .BrandPairUnsupported => "Brand pair not supported"
  | .InvalidEncryptedRate => "Invalid encrypted rate"
  | .AccountInactive => "Account inactive"
  | .InvalidAmount => "Invalid amount"
  | .RateNotSet => "Exchange rate not set"
  | .AccountNotFound => "Account not found"
  | .RateNotFound => "Rate not found"
  | .AccountNotActive => "Account not active"
  | .Unauthorized => "Not authorized"
  | .InvalidAddress => "Invalid address"

/-- The 32-bit modulus: `euint32`/`uint32` values live below this bound. -/
def U32 : Nat := 2 ^ 32

/-- An external encrypted input (`externalEuint32` plus its `inputProof`):
the plaintext it encodes and the outcome of the provider's
input-validity (`FHE.isInitialized ∘ FHE.fromExternal`) check. -/
structure ExtCipher where
  value : Nat
  valid : Bool
  deriving DecidableEq, Repr

/-- Operation `FHE.fromU32` / `FHE.fromExternal`: lift a plaintext into the 32-bit
ciphertext domain. -/
def fheFromU32 (n : Nat) : Nat := n % U32

/-- Operation `FHE.add` on `euint32`: wrapping 32-bit addition. -/
def fheAdd (x y : Nat) : Nat := (x + y) % U32

/-- Operation `FHE.sub` on `euint32`: wrapping 32-bit subtraction. -/
def fheSub (x y : Nat) : Nat := (x % U32 + (U32 - y % U32)) % U32

/-- Operation `FHE.mul` on `euint32`: wrapping 32-bit multiplication. -/
def fheMul (x y : Nat) : Nat := (x * y) % U32

/-- Solidity `struct LoyaltyAccount` of the contract. -/
structure LoyaltyAccount where
  encryptedPoints : Nat
  publicPoints : Nat
  lastUpdated : Nat
  isActive : Bool
  deriving DecidableEq, Repr

/-- Solidity `struct ExchangeRate` of the contract. -/
structure ExchangeRate where
  encryptedRate : Nat
  publicRate : Nat
  lastUpdated : Nat
  deriving DecidableEq, Repr

/-- Zero-initialised mapping default for `LoyaltyAccount`. -/
def emptyAccount : LoyaltyAccount :=
  { encryptedPoints := 0, publicPoints := 0, lastUpdated := 0, isActive := false }

/-- Zero-initialised mapping default for `ExchangeRate`. -/
def emptyRate : ExchangeRate :=
  { encryptedRate := 0, publicRate := 0, lastUpdated := 0 }

/-- The contract's persistent state: the three mappings, the owner and the
ordered brand list. -/
structure ContractState where
  accounts : Nat → LoyaltyAccount
  exchangeRates : String → ExchangeRate
  supportedBrands : String → Bool
  owner : Nat
  brandList : List String

/-- Mapping write `accounts[a] = v`. -/
def setAccount (s : ContractState) (a : Nat) (v : LoyaltyAccount) : ContractState :=
  { s with accounts := fun x => if x = a then v else s.accounts x }

/-- Mapping write `exchangeRates[k] = v`. -/
def setRateEntry (s : ContractState) (k : String) (v : ExchangeRate) : ContractState :=
  { s with exchangeRates := fun x => if x = k then v else s.exchangeRates x }

/-- Mapping write `supportedBrands[b] = true`. -/
def addBrand (s : ContractState) (b : String) : ContractState :=
  { s with supportedBrands := fun x => if x = b then true else s.supportedBrands x
           brandList := s.brandList ++ [b] }

/-- The constructor: all mappings zero-initialised, `owner = msg.sender`. -/
def deploy (sender : Nat) : ContractState :=
  { accounts := fun _ => emptyAccount
    exchangeRates := fun _ => emptyRate
    supportedBrands := fun _ => false
    owner := sender
    brandList := [] }

/-- Function `createAccount(encryptedPoints, inputProof, publicPoints)`.
Note the existence check of line 41 is `accounts[msg.sender].publicPoints == 0`. -/
def createAccount (s : ContractState) (sender : Nat) (ext : ExtCipher)
    (publicPoints : Nat) (time : Nat) : Except Err ContractState :=
  if (s.accounts sender).publicPoints ≠ 0 then
    .error .AccountAlreadyExists
  else if ¬ ext.valid then
    .error .InvalidEncryptedInput
  else
    .ok (setAccount s sender
      { encryptedPoints := fheFromU32 ext.value
        publicPoints := publicPoints
        lastUpdated := time
        isActive := true })

/-- Function `addSupportedBrand(brandId)`, guarded by `onlyOwner`. -/
def addSupportedBrand (s : ContractState) (sender : Nat) (brandId : String) :
    Except Err ContractState :=
  if sender ≠ s.owner then
    .error .Unauthorized
  else if s.supportedBrands brandId then
    .error .BrandAlreadySupported
  else
    .ok (addBrand s brandId)

/-- Function `setExchangeRate(brandPair, encryptedRate, rateProof, publicRate)`, guarded by `onlyOwner`.
Note line 64 requires `supportedBrands[brandPair]` for the single pair string. -/
def setExchangeRate (s : ContractState) (sender : Nat) (brandPair : String)
    (ext : ExtCipher) (publicRate : Nat) (time : Nat) : Except Err ContractState :=
  if sender ≠ s.owner then
    .error .Unauthorized
  else if ¬ s.supportedBrands brandPair then
    .error .BrandPairUnsupported
  else if ¬ ext.valid then
    .error .InvalidEncryptedRate
  else
    .ok (setRateEntry s brandPair
      { encryptedRate := fheFromU32 ext.value
        publicRate := publicRate
        lastUpdated := time })

/-- Line 84: `string(abi.encodePacked(fromBrand, "-", toBrand))`. -/
def mkBrandPair (fromBrand toBrand : String) : String :=
  fromBrand ++ "-" ++ toBrand

/-- Function `convertPoints(fromBrand, toBrand, amount)`: the four checks in source
order, then the homomorphic balance update of lines 88-96. -/
def convertPoints (s : ContractState) (sender : Nat) (fromBrand toBrand : String)
    (amount : Nat) (time : Nat) : Except Err ContractState :=
  if ¬ (s.accounts sender).isActive then
    .error .AccountInactive
  else if ¬ (s.supportedBrands fromBrand && s.supportedBrands toBrand) then
    .error .BrandPairUnsupported
  else if ¬ amount > 0 then
    .error .InvalidAmount
  else
    let brandPair := mkBrandPair fromBrand toBrand
    if ¬ (s.exchangeRates brandPair).publicRate > 0 then
      .error .RateNotSet
    else
      let acct := s.accounts sender
      let convertedAmount := fheMul (fheFromU32 amount) (s.exchangeRates brandPair).encryptedRate
      let debited := fheSub acct.encryptedPoints (fheFromU32 amount)
      let newBalance := fheAdd debited convertedAmount
      .ok (setAccount s sender { acct with encryptedPoints := newBalance, lastUpdated := time })

/-- View function `getAccountBalance(user)`. -/
def getAccountBalance (s : ContractState) (user : Nat) : Except Err (Nat × Nat) :=
  if ¬ (s.accounts user).isActive then
    .error .AccountNotFound
  else
    .ok ((s.accounts user).encryptedPoints, (s.accounts user).publicPoints)

/-- View function `getExchangeRate(brandPair)`. -/
def getExchangeRate (s : ContractState) (brandPair : String) : Except Err (Nat × Nat) :=
  if ¬ (s.exchangeRates brandPair).publicRate > 0 then
    .error .RateNotFound
  else
    .ok ((s.exchangeRates brandPair).encryptedRate, (s.exchangeRates brandPair).publicRate)

/-- View function `getSupportedBrands()`. -/
def getSupportedBrands (s : ContractState) : List String := s.brandList

/-- Function `deactivateAccount()`. -/
def deactivateAccount (s : ContractState) (sender : Nat) : Except Err ContractState :=
  if ¬ (s.accounts sender).isActive then
    .error .AccountNotActive
  else
    .ok (setAccount s sender { s.accounts sender with isActive := false })

/-- Function `updatePublicPoints(newPoints)`. -/
def updatePublicPoints (s : ContractState) (sender : Nat) (newPoints : Nat)
    (time : Nat) : Except Err ContractState :=
  if ¬ (s.accounts sender).isActive then
    .error .AccountNotActive
  else
    .ok (setAccount s sender
      { s.accounts sender with publicPoints := newPoints, lastUpdated := time })

/-- Function `transferOwnership(newOwner)`, guarded by `onlyOwner`. -/
def transferOwnership (s : ContractState) (sender : Nat) (newOwner : Nat) :
    Except Err ContractState :=
  if sender ≠ s.owner then
    .error .Unauthorized
  else if newOwner = 0 then
    .error .InvalidAddress
  else
    .ok { s with owner := newOwner }

/-! ## Decryption oracle bridge (spec §4.6)

The contract under `src/contracts` does not contain the
`DecryptionOracleBridge`; the frontend calls a deployed
`verifyDecryption(recordId, abiEncodedClearValues, decryptionProof)`
entry point whose implementation is not part of the sources.  The bridge
is therefore modelled from the spec below. -/

/-- Modelled from the spec: the missing `DecryptionOracleBridge` error,
raised when the submitted decryption proof does not validate. -/
inductive DecErr where
  | InvalidDecryptionProof
  deriving DecidableEq, Repr

/-- Modelled from the spec: the per-handle state machine
`Unverified → PendingProof → Verified` of the missing
`DecryptionOracleBridge` (spec §4.6); `Verified` is terminal. -/
inductive DecState where
  | Unverified
  | PendingProof
  | Verified
  deriving DecidableEq, Repr

/-- Modelled from the spec: a `DecryptionRecord` of the missing
`DecryptionOracleBridge` — the requested ciphertext handle, the requester,
the state, and (once `Verified`) the permanently stored cleartext value. -/
structure DecryptionRecord where
  handle : Nat
  requester : Nat
  state : DecState
  storedValue : Nat
  deriving DecidableEq, Repr

/-- Modelled from the spec: `requestDecryption` of the missing
`DecryptionOracleBridge` — from `Unverified` the record moves to
`PendingProof` while the handle is exposed to the external decryptor;
any other state is left unchanged. -/
def requestDecryption (r : DecryptionRecord) : DecryptionRecord :=
  if r.state = .Unverified then { r with state := .PendingProof } else r

/-- Modelled from the spec: `verifyDecryption(recordId, cleartextValues, proof)`
of the missing `DecryptionOracleBridge`.  An already-`Verified` record
short-circuits, returning the stored value with no state change; otherwise a
valid proof stores the cleartext permanently and moves the record to
`Verified`, and an invalid proof fails with `InvalidDecryptionProof`,
leaving the record as it was. -/
def verifyDecryption (r : DecryptionRecord) (clearValue : Nat) (proofValid : Bool) :
    Except DecErr (DecryptionRecord × Nat) :=
  if r.state = .Verified then
    .ok (r, r.storedValue)
  else if proofValid then
    .ok ({ r with state := .Verified, storedValue := clearValue }, clearValue)
  else
    .error .InvalidDecryptionProof

/-! ## Concrete states used to instantiate the theorems below -/

/-- A state whose account 1 was created with a nonzero plaintext mirror. -/
def accState : ContractState :=
  { deploy 0 with accounts := fun a =>
      if a = 1 then
        { encryptedPoints := 77, publicPoints := 5, lastUpdated := 10, isActive := true }
      else emptyAccount }

/-- A state with brands "A" and "B" registered and nothing else. -/
def twoBrandState : ContractState :=
  { deploy 0 with supportedBrands := fun b => b == "A" || b == "B" }

/-- A state with brands "A", "B" registered, the rate for the pair key "A-B"
set (encrypted 2, mirror 2), and an active account 1 with balance 100. -/
def convState : ContractState :=
  { deploy 0 with
      supportedBrands := fun b => b == "A" || b == "B"
      exchangeRates := fun k =>
        if k = "A-B" then { encryptedRate := 2, publicRate := 2, lastUpdated := 0 }
        else emptyRate
      accounts := fun a =>
        if a = 1 then
          { encryptedPoints := 100, publicPoints := 100, lastUpdated := 0, isActive := true }
        else emptyAccount }

/-- Like `convState` but with the encrypted rate 0 (mirror 5), so that a
conversion of more than the balance wraps visibly. -/
def wrapState : ContractState :=
  { deploy 0 with
      supportedBrands := fun b => b == "A" || b == "B"
      exchangeRates := fun k =>
        if k = "A-B" then { encryptedRate := 0, publicRate := 5, lastUpdated := 0 }
        else emptyRate
      accounts := fun a =>
        if a = 1 then
          { encryptedPoints := 100, publicPoints := 100, lastUpdated := 0, isActive := true }
        else emptyAccount }

/-- The transaction sequence the owner 0 and user 1 can run from deployment:
register the single brand string "A-B", set its rate, create an account.
It reaches a state where account 1 is active, the rate for the composite key
`mkBrandPair "A" "B"` is configured, yet neither "A" nor "B" is registered. -/
def pairOnlyReached : Except Err ContractState :=
  (addSupportedBrand (deploy 0) 0 "A-B").bind fun s1 =>
  (setExchangeRate s1 0 "A-B" ⟨3, true⟩ 3 0).bind fun s2 =>
  createAccount s2 1 ⟨100, true⟩ 100 0

/-- A state holding a deactivated account 1 whose record and balance 77 are
retained. -/
def deactState : ContractState :=
  { deploy 0 with accounts := fun a =>
      if a = 1 then
        { encryptedPoints := 77, publicPoints := 7, lastUpdated := 3, isActive := false }
      else emptyAccount }

/-- A state with an active account 1 (balance 100), brands "A" and "B"
registered, and no rate configured. -/
def noRateState : ContractState :=
  { deploy 0 with
      supportedBrands := fun b => b == "A" || b == "B"
      accounts := fun a =>
        if a = 1 then
          { encryptedPoints := 100, publicPoints := 100, lastUpdated := 0, isActive := true }
        else emptyAccount }

/-- A verified decryption record with stored cleartext 42. -/
def verifiedRec : DecryptionRecord :=
  { handle := 9, requester := 2, state := .Verified, storedValue := 42 }

/-! ## General lemmas about the embedded operations -/

theorem setAccount_same (s : ContractState) (a : Nat) (v : LoyaltyAccount) :
    (setAccount s a v).accounts a = v := by
  simp [setAccount]

theorem setAccount_other (s : ContractState) (a x : Nat) (v : LoyaltyAccount)
    (h : x ≠ a) : (setAccount s a v).accounts x = s.accounts x := by
  simp [setAccount, h]

/-- Normal form of the balance update of `convertPoints` lines 88-96: on
32-bit-ranged inputs the three homomorphic operations compute
`(b + 2^32 − a + a·r) mod 2^32`. -/
theorem convertBalance_formula (b a r : Nat) (hb : b < U32) (ha : a < U32) :
    fheAdd (fheSub b (fheFromU32 a)) (fheMul (fheFromU32 a) r)
      = (b + U32 - a + a * r) % U32 := by
  have hb' : b % U32 = b := Nat.mod_eq_of_lt hb
  have ha' : a % U32 = a := Nat.mod_eq_of_lt ha
  simp only [fheAdd, fheSub, fheMul, fheFromU32, ha', hb']
  rw [← Nat.add_mod]
  congr 1
  omega

/-- The successful branch of `convertPoints`: when the four checks pass, the
caller's account receives the updated balance and timestamp. -/
theorem convertPoints_ok (s : ContractState) (sender : Nat) (fromB toB : String)
    (a t : Nat)
    (hact : (s.accounts sender).isActive = true)
    (hfrom : s.supportedBrands fromB = true)
    (hto : s.supportedBrands toB = true)
    (hamt : 0 < a)
    (hrate : 0 < (s.exchangeRates (mkBrandPair fromB toB)).publicRate) :
    convertPoints s sender fromB toB a t = .ok (setAccount s sender
      { s.accounts sender with
          encryptedPoints :=
            fheAdd (fheSub (s.accounts sender).encryptedPoints (fheFromU32 a))
              (fheMul (fheFromU32 a) (s.exchangeRates (mkBrandPair fromB toB)).encryptedRate),
          lastUpdated := t }) := by
  simp only [convertPoints, hact, hfrom, hto, hamt, hrate]
  simp

/-- Observable form of a successful conversion: the caller's new encrypted
balance is `(b + 2^32 − a + a·r) mod 2^32`. -/
theorem convertPoints_balance_mod (s : ContractState) (sender : Nat)
    (fromB toB : String) (a t : Nat)
    (hact : (s.accounts sender).isActive = true)
    (hfrom : s.supportedBrands fromB = true)
    (hto : s.supportedBrands toB = true)
    (hamt : 0 < a)
    (hrate : 0 < (s.exchangeRates (mkBrandPair fromB toB)).publicRate)
    (hb : (s.accounts sender).encryptedPoints < U32)
    (ha : a < U32) :
    (convertPoints s sender fromB toB a t).map
        (fun s' => (s'.accounts sender).encryptedPoints)
      = .ok (((s.accounts sender).encryptedPoints + U32 - a
              + a * (s.exchangeRates (mkBrandPair fromB toB)).encryptedRate) % U32) := by
  rw [convertPoints_ok s sender fromB toB a t hact hfrom hto hamt hrate]
  simp [Except.map, setAccount_same]
  rw [convertBalance_formula _ _ _ hb ha]

/-! ## Claim C1 -/

/-- C1, counterexample: the existence check of `createAccount` is
`publicPoints == 0`, not record existence.  Starting from deployment, a first
`createAccount` with plaintext mirror 0 succeeds and leaves an active record
with encrypted balance 77; a second `createAccount` for the same owner then
also succeeds (it does not fail with `AccountAlreadyExists`) and overwrites
the record's encrypted balance and timestamp. -/
theorem createAccount_zero_mirror_reentry :
    (createAccount (deploy 0) 1 ⟨77, true⟩ 0 10).map
        (fun s1 => ((s1.accounts 1).isActive, (s1.accounts 1).encryptedPoints)) = .ok (true, 77) ∧
    ((createAccount (deploy 0) 1 ⟨77, true⟩ 0 10).bind
        (fun s1 => createAccount s1 1 ⟨99, true⟩ 0 20)).map
        (fun s2 => ((s2.accounts 1).encryptedPoints, (s2.accounts 1).lastUpdated))
      = .ok (99, 20) :=
  ⟨rfl, rfl⟩

/-- C1, amended: a second `createAccount` for an owner fails with
`AccountAlreadyExists` — reverting, so the existing Account's fields are
untouched — exactly when the owner's stored record has a nonzero plaintext
mirror (`publicPoints ≠ 0`); an account created with mirror 0 does not trip
the check. -/
theorem createAccount_guard (s : ContractState) (sender : Nat) (ext : ExtCipher)
    (pp t : Nat) (h : (s.accounts sender).publicPoints ≠ 0) :
    createAccount s sender ext pp t = .error .AccountAlreadyExists := by
  simp [createAccount, h]

/-- C1, witness: on a state whose account 1 has plaintext mirror 5, a second
`createAccount` fails with `AccountAlreadyExists`. -/
theorem createAccount_guard_inst :
    createAccount accState 1 ⟨99, true⟩ 0 20 = .error .AccountAlreadyExists :=
  createAccount_guard accState 1 ⟨99, true⟩ 0 20 (by decide)

/-! ## Claim C2 -/

/-- C2, counterexample: `setExchangeRate` checks only that the single
`brandPair` string is itself a registered brand, not that the two component
brands are.  With "A" and "B" both registered, setting the rate for the pair
key "A-B" fails with `BrandPairUnsupported`; conversely, after the owner
registers the literal string "A-B" as a brand, a rate entry for the pair key
of ("A","B") exists (mirror 3) although neither "A" nor "B" is registered. -/
theorem setExchangeRate_pair_string_check :
    (twoBrandState.supportedBrands "A" = true ∧
     twoBrandState.supportedBrands "B" = true ∧
     setExchangeRate twoBrandState 0 (mkBrandPair "A" "B") ⟨2, true⟩ 2 10
       = .error .BrandPairUnsupported) ∧
    ((pairOnlyReached.map (fun s => (s.supportedBrands "A", s.supportedBrands "B",
        (s.exchangeRates (mkBrandPair "A" "B")).publicRate)))
      = .ok (false, false, 3)) :=
  ⟨⟨rfl, rfl, rfl⟩, rfl⟩

/-- C2, amended: when called by the owner, `setExchangeRate(brandPair, ...)`
fails with `BrandPairUnsupported` unless the `brandPair` string itself is
registered as a supported brand; registration of the two component brands is
neither required nor checked. -/
theorem setExchangeRate_guard (s : ContractState) (sender : Nat) (brandPair : String)
    (ext : ExtCipher) (pr t : Nat)
    (hown : sender = s.owner) (hns : s.supportedBrands brandPair = false) :
    setExchangeRate s sender brandPair ext pr t = .error .BrandPairUnsupported := by
  simp [setExchangeRate, hown, hns]

/-- C2, witness: the owner setting a rate for the unregistered string "C"
fails with `BrandPairUnsupported`. -/
theorem setExchangeRate_guard_inst :
    setExchangeRate twoBrandState 0 "C" ⟨2, true⟩ 2 10 = .error .BrandPairUnsupported :=
  setExchangeRate_guard twoBrandState 0 "C" ⟨2, true⟩ 2 10 (by decide) (by decide)

/-! ## Claim C3 -/

/-- C3: for every active account with encrypted balance `b`, registered
brands, positive amount `a ≤ b` and configured rate whose ciphertext is `r`,
with all values in 32-bit range and the result not overflowing,
`convertPoints` succeeds and the account's single encrypted balance becomes
exactly `b − a + a·r`. -/
theorem convertPoints_arith (s : ContractState) (sender : Nat)
    (fromB toB : String) (a t : Nat)
    (hact : (s.accounts sender).isActive = true)
    (hfrom : s.supportedBrands fromB = true)
    (hto : s.supportedBrands toB = true)
    (hamt : 0 < a)
    (hrate : 0 < (s.exchangeRates (mkBrandPair fromB toB)).publicRate)
    (hb : (s.accounts sender).encryptedPoints < U32)
    (ha : a < U32)
    (hle : a ≤ (s.accounts sender).encryptedPoints)
    (hsum : (s.accounts sender).encryptedPoints - a
        + a * (s.exchangeRates (mkBrandPair fromB toB)).encryptedRate < U32) :
    (convertPoints s sender fromB toB a t).map
        (fun s' => (s'.accounts sender).encryptedPoints)
      = .ok ((s.accounts sender).encryptedPoints - a
          + a * (s.exchangeRates (mkBrandPair fromB toB)).encryptedRate) := by
  rw [convertPoints_balance_mod s sender fromB toB a t hact hfrom hto hamt hrate hb ha]
  congr 1
  generalize hm : a * (s.exchangeRates (mkBrandPair fromB toB)).encryptedRate = m at hsum ⊢
  have h1 : (s.accounts sender).encryptedPoints + U32 - a + m
      = U32 + ((s.accounts sender).encryptedPoints - a + m) := by omega
  rw [h1, Nat.add_mod_left, Nat.mod_eq_of_lt hsum]

/-- C3, witness: with initial balance 100, encrypted rate 2 and amount 50,
the resulting encrypted balance is exactly 150. -/
theorem convertPoints_arith_inst :
    (convertPoints convState 1 "A" "B" 50 10).map
        (fun s' => (s'.accounts 1).encryptedPoints) = .ok 150 := by
  have h := convertPoints_arith convState 1 "A" "B" 50 10 rfl rfl rfl (by decide)
    (by decide) (by decide) (by decide) (by decide) (by decide)
  simpa using h

/-! ## Claim C4 -/

/-- C4: `convertPoints` checks its preconditions in the fixed source order —
inactive account gives `AccountInactive`; then an unregistered brand on
either side gives `BrandPairUnsupported`; then a zero amount gives
`InvalidAmount`; then an unset rate (zero mirror) for the composite pair key
gives `RateNotSet`.  The first failing check determines the error, and an
error result is a revert: no state is mutated. -/
theorem convertPoints_error_order (s : ContractState) (sender : Nat)
    (fromB toB : String) (a t : Nat) :
    ((s.accounts sender).isActive = false →
      convertPoints s sender fromB toB a t = .error .AccountInactive) ∧
    ((s.accounts sender).isActive = true →
      (s.supportedBrands fromB && s.supportedBrands toB) = false →
      convertPoints s sender fromB toB a t = .error .BrandPairUnsupported) ∧
    ((s.accounts sender).isActive = true →
      (s.supportedBrands fromB && s.supportedBrands toB) = true →
      a = 0 →
      convertPoints s sender fromB toB a t = .error .InvalidAmount) ∧
    ((s.accounts sender).isActive = true →
      (s.supportedBrands fromB && s.supportedBrands toB) = true →
      0 < a →
      (s.exchangeRates (mkBrandPair fromB toB)).publicRate = 0 →
      convertPoints s sender fromB toB a t = .error .RateNotSet) := by
  refine ⟨fun h1 => ?_, fun h1 h2 => ?_, fun h1 h2 h3 => ?_, fun h1 h2 h3 h4 => ?_⟩
  · simp [convertPoints, h1]
  · simp [convertPoints, h1, h2]
  · simp [convertPoints, h1, h2, h3]
  · simp [convertPoints, h1, h2, h3, h4]

/-- C4, witness: each of the four errors observed on a concrete state, in
order — inactive account; unregistered brands; zero amount; missing rate. -/
theorem convertPoints_error_order_inst :
    convertPoints (deploy 0) 1 "A" "B" 5 0 = .error .AccountInactive ∧
    convertPoints noRateState 1 "X" "Y" 5 0 = .error .BrandPairUnsupported ∧
    convertPoints noRateState 1 "A" "B" 0 0 = .error .InvalidAmount ∧
    convertPoints noRateState 1 "A" "B" 50 0 = .error .RateNotSet :=
  ⟨(convertPoints_error_order (deploy 0) 1 "A" "B" 5 0).1 rfl,
   (convertPoints_error_order noRateState 1 "X" "Y" 5 0).2.1 rfl rfl,
   (convertPoints_error_order noRateState 1 "A" "B" 0 0).2.2.1 rfl rfl rfl,
   (convertPoints_error_order noRateState 1 "A" "B" 50 0).2.2.2 rfl rfl (by decide) rfl⟩

/-! ## Claim C5 -/

/-- C5: once a `DecryptionRecord` is `Verified`, every subsequent
`verifyDecryption` call returns the same record together with its permanently
stored cleartext value, for every submitted cleartext and proof — valid or
not — and neither `verifyDecryption` nor `requestDecryption` transitions the
record out of `Verified`. -/
theorem verified_terminal_idempotent (r : DecryptionRecord)
    (h : r.state = .Verified) :
    (∀ v p, verifyDecryption r v p = .ok (r, r.storedValue)) ∧
    requestDecryption r = r := by
  constructor
  · intro v p
    simp [verifyDecryption, h]
  · simp [requestDecryption, h]

/-- C5, witness: a verified record with stored value 42 returns 42 unchanged
even for an invalid proof, and a new request leaves it verified. -/
theorem verified_terminal_idempotent_inst :
    verifyDecryption verifiedRec 7 false = .ok (verifiedRec, 42) ∧
    requestDecryption verifiedRec = verifiedRec :=
  ⟨(verified_terminal_idempotent verifiedRec rfl).1 7 false,
   (verified_terminal_idempotent verifiedRec rfl).2⟩

/-! ## Claim C6 -/

/-- C6: the composite rate key `mkBrandPair` (string concatenation with the
separator "-") is not injective: the distinct ordered pairs
("a-b","c-d-e") and ("a-b-c","d-e"), all four identifiers containing the
separator character, produce the same key, hence resolve to the same
`exchangeRates` entry in every state. -/
theorem mkBrandPair_collision :
    mkBrandPair "a-b" "c-d-e" = mkBrandPair "a-b-c" "d-e" ∧
    (("a-b" : String), ("c-d-e" : String)) ≠ (("a-b-c" : String), ("d-e" : String)) ∧
    ('-' ∈ "a-b".data ∧ '-' ∈ "c-d-e".data ∧ '-' ∈ "a-b-c".data ∧ '-' ∈ "d-e".data) ∧
    ∀ s : ContractState,
      s.exchangeRates (mkBrandPair "a-b" "c-d-e") = s.exchangeRates (mkBrandPair "a-b-c" "d-e") :=
  ⟨rfl, by decide, by decide, fun _ => rfl⟩

/-! ## Claim C7 -/

/-- C7: for every caller other than the stored owner, `addSupportedBrand`
and `setExchangeRate` fail with `Unauthorized` — a revert, so the brand
registry, brand list and rate table are unchanged. -/
theorem onlyOwner_guards (s : ContractState) (sender : Nat) (brandId brandPair : String)
    (ext : ExtCipher) (pr t : Nat) (h : sender ≠ s.owner) :
    addSupportedBrand s sender brandId = .error .Unauthorized ∧
    setExchangeRate s sender brandPair ext pr t = .error .Unauthorized := by
  constructor
  · simp [addSupportedBrand, h]
  · simp [setExchangeRate, h]

/-- C7, witness: caller 1 is not the deployer 0, so both mutators fail with
`Unauthorized`. -/
theorem onlyOwner_guards_inst :
    addSupportedBrand (deploy 0) 1 "A" = .error .Unauthorized ∧
    setExchangeRate (deploy 0) 1 "A-B" ⟨2, true⟩ 2 0 = .error .Unauthorized :=
  onlyOwner_guards (deploy 0) 1 "A" "A-B" ⟨2, true⟩ 2 0 (by decide)

/-! ## Claim C8 -/

/-- C8: `deactivateAccount` fails with `AccountNotActive` when the caller's
account is already inactive; otherwise it succeeds, the caller's account
keeps its encrypted balance, plaintext mirror and timestamp with only the
active flag flipped to false, every other account is untouched, and the
rate table, brand registry, brand list and owner are unchanged. -/
theorem deactivateAccount_spec (s : ContractState) (sender : Nat) :
    ((s.accounts sender).isActive = false →
      deactivateAccount s sender = .error .AccountNotActive) ∧
    ((s.accounts sender).isActive = true →
      ∃ s', deactivateAccount s sender = .ok s' ∧
        s'.accounts sender = { s.accounts sender with isActive := false } ∧
        (∀ a, a ≠ sender → s'.accounts a = s.accounts a) ∧
        s'.exchangeRates = s.exchangeRates ∧
        s'.supportedBrands = s.supportedBrands ∧
        s'.owner = s.owner ∧
        s'.brandList = s.brandList) := by
  constructor
  · intro h
    simp [deactivateAccount, h]
  · intro h
    refine ⟨setAccount s sender { s.accounts sender with isActive := false }, ?_,
      setAccount_same _ _ _, fun a ha => setAccount_other _ _ _ _ ha, rfl, rfl, rfl, rfl⟩
    simp [deactivateAccount, h]

/-- C8, witness: deactivating the fresh (inactive) account of a new
deployment fails with `AccountNotActive`; deactivating the active account 1
of `accState` flips only its active flag and leaves everything else. -/
theorem deactivateAccount_spec_inst :
    (deactivateAccount (deploy 0) 1 = .error .AccountNotActive) ∧
    (∃ s', deactivateAccount accState 1 = .ok s' ∧
      s'.accounts 1 = { accState.accounts 1 with isActive := false } ∧
      (∀ a, a ≠ 1 → s'.accounts a = accState.accounts a) ∧
      s'.exchangeRates = accState.exchangeRates ∧
      s'.supportedBrands = accState.supportedBrands ∧
      s'.owner = accState.owner ∧
      s'.brandList = accState.brandList) :=
  ⟨(deactivateAccount_spec (deploy 0) 1).1 rfl,
   (deactivateAccount_spec accState 1).2 rfl⟩

/-! ## Claim C9 -/

/-- C9, counterexample: a configured rate for the composite key of
("A","B") does not imply the conversion succeeds.  From deployment the owner
registers the literal brand string "A-B" and sets its rate (mirror 3), and
user 1 creates an active account; in the reached state the account is
active, the amount 50 is positive and the rate for `mkBrandPair "A" "B"` is
configured, yet `convertPoints "A" "B" 50` fails with `BrandPairUnsupported`
because the component brands are not registered. -/
theorem convertPoints_unregistered_components :
    pairOnlyReached.map (fun s => ((s.accounts 1).isActive,
        (s.exchangeRates (mkBrandPair "A" "B")).publicRate,
        convertPoints s 1 "A" "B" 50 10))
      = .ok (true, 3, .error .BrandPairUnsupported) :=
  rfl

/-- C9, amended: `convertPoints` imposes no precondition relating the amount
to the balance.  For every active account with both brands registered, every
positive 32-bit amount and a configured rate, the conversion succeeds and
the new encrypted balance equals `(b + 2^32 − a + a·r) mod 2^32`, so
converting more than the current balance wraps in 32-bit arithmetic instead
of failing. -/
theorem convertPoints_wrap (s : ContractState) (sender : Nat)
    (fromB toB : String) (a t : Nat)
    (hact : (s.accounts sender).isActive = true)
    (hfrom : s.supportedBrands fromB = true)
    (hto : s.supportedBrands toB = true)
    (hamt : 0 < a)
    (hrate : 0 < (s.exchangeRates (mkBrandPair fromB toB)).publicRate)
    (hb : (s.accounts sender).encryptedPoints < U32)
    (ha : a < U32) :
    (convertPoints s sender fromB toB a t).map
        (fun s' => (s'.accounts sender).encryptedPoints)
      = .ok (((s.accounts sender).encryptedPoints + U32 - a
              + a * (s.exchangeRates (mkBrandPair fromB toB)).encryptedRate) % U32) :=
  convertPoints_balance_mod s sender fromB toB a t hact hfrom hto hamt hrate hb ha

/-- C9, witness: converting amount 200 from balance 100 with encrypted rate
0 succeeds and wraps to `2^32 − 100 = 4294967196`. -/
theorem convertPoints_wrap_inst :
    (convertPoints wrapState 1 "A" "B" 200 10).map
        (fun s' => (s'.accounts 1).encryptedPoints) = .ok 4294967196 := by
  have h := convertPoints_wrap wrapState 1 "A" "B" 200 10 rfl rfl rfl (by decide)
    (by decide) (by decide) (by decide)
  simpa [U32] using h

/-! ## Claim C10 -/

/-- C10: `getAccountBalance(user)` fails with `AccountNotFound` for every
user whose account is not active — in particular for a deactivated account
whose record and retained balance still exist in storage. -/
theorem getAccountBalance_inactive (s : ContractState) (user : Nat)
    (h : (s.accounts user).isActive = false) :
    getAccountBalance s user = .error .AccountNotFound := by
  simp [getAccountBalance, h]

/-- C10, witness: the deactivated account 1 still stores balance 77, yet the
getter fails with `AccountNotFound`. -/
theorem getAccountBalance_inactive_inst :
    (deactState.accounts 1).encryptedPoints = 77 ∧
    getAccountBalance deactState 1 = .error .AccountNotFound :=
  ⟨rfl, getAccountBalance_inactive deactState 1 rfl⟩
